import Mathlib

/-!
# Verification of the solanum pomodoro-session core

Shallow embedding of the countdown/session engine of the `solanum` terminal
pomodoro timer (files `src/timer.rs`, `src/session.rs`, `src/event.rs`,
`src/ui.rs`, `src/error.rs`, `src/notification.rs`).

Modelling conventions:
* `usize` is modelled as `Nat` with explicit `% 2 ^ 64` where wrap-around
  matters; `u8` counters as `Nat` with explicit `% 256` (release-mode
  wrap-around semantics; a debug build would abort on overflow instead).
* Wall-clock quantities (`std::time::Duration`, `Instant::elapsed`) are
  modelled in nanoseconds as `Nat`; the environment supplies the elapsed
  time observed at each measurement point.
* The `mpsc` channel is modelled by a script: a list of outcomes, one per
  receive operation performed by the code.
* `f32` arithmetic in `Timer::remaining_percentage` is idealised as exact
  rational arithmetic; the `as u16` cast truncates toward zero and
  saturates, which is Rust semantics for float-to-int `as` casts.  For the
  reachable states (`0 ≤ residue ≤ total`) truncation of the exact ratio
  and truncation of the `f32` ratio agree on every fact proved below.
* The multi-line ASCII art stored in a snapshot is an injective rendering
  (`Timer::to_ascii_art ∘ hhmmss`) of the residue at emission time; the
  model carries the rendered residue itself in the `ascii` field.
-/

namespace Solanum

/-- Application events (`src/event.rs`, `enum Event`). -/
inductive Event
  | togglePause
  | skip
deriving DecidableEq

/-- Kind of activity associated to the timer (`src/session.rs`, `enum Activity`).
The pomodoro ordinal is a `u8` in the source; values stay below 256 by
construction in `sessionGo`. -/
inductive Activity
  | pomodoro (num : Nat)
  | shortBreak
  | longBreak
deriving DecidableEq

/-- Pomodoro/Break timer (`src/timer.rs`, `struct Timer`); both fields are
`usize` in the source. -/
structure Timer where
  total : Nat
  residue : Nat
deriving DecidableEq

/-- Model of `Timer::remaining_percentage` (timer.rs:106-108):
`(self.residue as f32 / self.total as f32) * 100.0`, idealised over `ℚ`.
(Division by zero yields `0` here where `f32` would give NaN; the running
loop only evaluates this with `0 < residue ≤ total`.) -/
def Timer.remainingPercentage (t : Timer) : ℚ :=
  (t.residue : ℚ) / (t.total : ℚ) * 100

/-- Timer data for UI rendering (`src/timer.rs`, `struct TimerData`).
The source field `ascii : String` holds `to_ascii_art()` of the residue, an
injective rendering; the model stores the displayed residue itself. -/
structure TimerData where
  activity : Activity
  ascii : Nat
  perc : Nat
deriving DecidableEq

/-- The value of a Rust `as u16` cast applied to a non-NaN float of exact
value `q`: truncation toward zero, saturated to `[0, 65535]`.  For `q < 0`
the numerator is negative and `Int.toNat` yields 0; for `0 ≤ q` truncation
equals `⌊q⌋₊` (see `truncSatU16_eq_floor`). -/
def truncSatU16 (q : ℚ) : Nat :=
  if q.num.toNat / q.den ≤ 65535 then q.num.toNat / q.den else 65535

/-- Model of `TimerData::new` (timer.rs:48-54): `perc` is narrowed with `perc as u16`. -/
def TimerData.new (activity : Activity) (ascii : Nat) (perc : ℚ) : TimerData :=
  { activity := activity, ascii := ascii, perc := truncSatU16 perc }

/-- Timer status (`src/timer.rs`, `enum TimerStatus`). -/
inductive TimerStatus
  | running (d : TimerData)
  | paused
  | expired
deriving DecidableEq

/-- Commands consumed by the UI thread (`src/ui.rs`, `enum UiCommand`). -/
inductive UiCommand
  | draw (s : TimerStatus)
  | refresh
deriving DecidableEq

/-- Duration of the timer-expired screen in seconds (timer.rs:22,
`const EXPIRED_DURATION: u64 = 5`). -/
def expiredDuration : Nat := 5

/-- The `delay` closure of `Timer::start` (timer.rs:119-123):
`Duration::from_millis(999).checked_sub(time.elapsed())`, `none` exactly when
the elapsed time exceeds 999 ms (then mapped to `Error::RenderTime`).
Times in nanoseconds. -/
def delay (elapsedNs : Nat) : Option Nat :=
  if elapsedNs ≤ 999000000 then some (999000000 - elapsedNs) else none

/-- Outcome of one `rx_event.recv_timeout` call (std `mpsc`). -/
inductive RecvTimeout
  | timeout
  | ev (e : Event)
  | disconnected
deriving DecidableEq

/-- Outcome of one blocking `rx_event.recv` call (std `mpsc`). -/
inductive Recv
  | ev (e : Event)
  | disconnected
deriving DecidableEq

/-- Environment for one iteration of the countdown loop of `Timer::start`:
the elapsed time (ns) since the tick-start instant observed at the
`delay(start)` call, the outcome of the `recv_timeout` wait, and — consulted
only when that outcome is `TogglePause` — the outcome of the blocking `recv`
performed while paused. -/
structure TickInput where
  elapsedNs : Nat
  recv : RecvTimeout
  pauseRecv : Recv
deriving DecidableEq

/-- How the countdown loop of `Timer::start` (timer.rs:126-156) ended. -/
inductive LoopExit
  /-- Case where `delay` returned `none`: the run fails with `Error::RenderTime`. -/
  | renderOverrun
  /-- The event channel disconnected: the run returns `Ok(true)`. -/
  | terminate
  /-- Case where `residue` reached 0, or a `Skip` broke out: fall through to expiry. -/
  | expired
  /-- The input script was exhausted while the loop was still running. -/
  | stuck
deriving DecidableEq

/-- The countdown loop of `Timer::start` (timer.rs:126-156).  Each iteration:
while `residue > 0`, emit a `Running` snapshot, compute the tick budget with
`delay` (failing with render overrun if none is left), then wait on the event
channel: timeout decrements `residue`; `TogglePause` draws the pause screen
and blocks on `recv` (`TogglePause` resumes via `continue`, skipping the
decrement; `Skip` breaks; disconnect returns `Ok(true)`); `Skip` breaks;
disconnect returns `Ok(true)`.  Returns the emitted draw commands, the final
timer state and how the loop exited. -/
def countdownLoop (act : Activity) : Timer → List TickInput → List UiCommand × Timer × LoopExit
  | t, [] => if t.residue = 0 then ([], t, .expired) else ([], t, .stuck)
  | t, i :: rest =>
    if t.residue = 0 then ([], t, .expired)
    else
      let snap := UiCommand.draw (.running (TimerData.new act t.residue t.remainingPercentage))
      match delay i.elapsedNs with
      | none => ([snap], t, .renderOverrun)
      | some _ =>
        match i.recv with
        | .timeout =>
          let r := countdownLoop act ⟨t.total, t.residue - 1⟩ rest
          (snap :: r.1, r.2)
        | .ev .togglePause =>
          match i.pauseRecv with
          | .ev .togglePause =>
            let r := countdownLoop act t rest
            (snap :: UiCommand.draw .paused :: r.1, r.2)
          | .ev .skip => ([snap, UiCommand.draw .paused], t, .expired)
          | .disconnected => ([snap, UiCommand.draw .paused], t, .terminate)
        | .ev .skip => ([snap], t, .expired)
        | .disconnected => ([snap], t, .terminate)

/-- Environment for one iteration of the expired-screen wait loop of
`Timer::start` (timer.rs:162-169): the elapsed time (ns) since the window
start observed at the `while` condition, and the outcome of the
`recv_timeout(5s)` wait. -/
structure WindowInput where
  elapsedNs : Nat
  recv : RecvTimeout
deriving DecidableEq

/-- How the expired-confirmation wait loop ended. -/
inductive WindowExit
  /-- Channel disconnect: `Timer::start` returns `Ok(true)`. -/
  | terminate
  /-- Loop left via `recv_timeout` timing out or the `while` condition. -/
  | normal
  /-- The input script was exhausted while the loop was still running. -/
  | stuck
deriving DecidableEq

/-- The expired-screen wait loop of `Timer::start` (timer.rs:162-169):
`while start.elapsed() <= 5s { match recv_timeout(5s) { Timeout => break,
Disconnected => return Ok(true), Ok(_) => {} } }`.  A received event is
discarded and the loop continues.  Returns the number of receive operations
performed and how the loop ended. -/
def windowLoop : List WindowInput → Nat × WindowExit
  | [] => (0, .stuck)
  | i :: rest =>
    if i.elapsedNs ≤ expiredDuration * 1000000000 then
      match i.recv with
      | .timeout => (1, .normal)
      | .disconnected => (1, .terminate)
      | .ev _ =>
        let r := windowLoop rest
        (r.1 + 1, r.2)
    else (0, .normal)

/-- A notification-delivery failure (`notify_rust` error, wrapped as
`Error::Notification` in `src/error.rs`). -/
inductive NotifyErr
  | deliveryFailed
deriving DecidableEq

/-- Error variants of `src/error.rs` reachable from `Timer::start`. -/
inductive Err
  | renderTime
  | notification (e : NotifyErr)
deriving DecidableEq

/-- Result of a `Timer::start` run. -/
inductive StartRes
  /-- Rust `Err(..)` was returned. -/
  | err (e : Err)
  /-- Rust `Ok(terminate)` was returned. -/
  | ok (terminate : Bool)
  /-- The input script was exhausted before the run returned. -/
  | stuck
deriving DecidableEq

/-- Observable outcome of a `Timer::start` run: the draw commands sent to the
UI channel, the final timer state, whether `notify` was invoked, and the
returned value. -/
structure StartOut where
  trace : List UiCommand
  timer : Timer
  notified : Bool
  result : StartRes
deriving DecidableEq

/-- Model of `Timer::start` (timer.rs:113-175).  After the countdown loop: on normal
expiry, `notify(activity)?` is invoked (its error, if any, is propagated with
`?`), the `Expired` screen is drawn, the confirmation window runs, and only
on its normal end is `residue` reset to `total` before returning
`Ok(false)`. -/
def Timer.start (t : Timer) (act : Activity) (notifyRes : Option NotifyErr)
    (ticks : List TickInput) (window : List WindowInput) : StartOut :=
  let r := countdownLoop act t ticks
  match r.2.2 with
  | .renderOverrun => ⟨r.1, r.2.1, false, .err .renderTime⟩
  | .terminate => ⟨r.1, r.2.1, false, .ok true⟩
  | .stuck => ⟨r.1, r.2.1, false, .stuck⟩
  | .expired =>
    match notifyRes with
    | some e => ⟨r.1, r.2.1, true, .err (.notification e)⟩
    | none =>
      let tr := r.1 ++ [UiCommand.draw .expired]
      match (windowLoop window).2 with
      | .terminate => ⟨tr, r.2.1, true, .ok true⟩
      | .stuck => ⟨tr, r.2.1, true, .stuck⟩
      | .normal => ⟨tr, ⟨r.2.1.total, r.2.1.total⟩, true, .ok false⟩

/-- A tick-loop iteration in which nothing happens: negligible elapsed time
and no event before the timeout (the `pauseRecv` component is never
consulted on a timeout). -/
def quietTick : TickInput := ⟨0, .timeout, .ev .togglePause⟩

/-- A confirmation-window script in which no event arrives: the first
`recv_timeout(5s)` times out and the window ends normally. -/
def quietWindow : List WindowInput := [⟨0, .timeout⟩]

/-- The canonical undisturbed run of a fresh timer of total duration `d`:
every tick times out with no event, `notify` succeeds, and the expired
window closes on its timeout. -/
def noEventRun (d : Nat) (act : Activity) : StartOut :=
  Timer.start ⟨d, d⟩ act none (List.replicate d quietTick) quietWindow

/-- The residues displayed by the `Running` snapshots of a trace. -/
def runningResidues (tr : List UiCommand) : List Nat :=
  tr.filterMap fun c =>
    match c with
    | .draw (.running d) => some d.ascii
    | _ => none

/-- The percentages carried by the `Running` snapshots of a trace. -/
def runningPercs (tr : List UiCommand) : List Nat :=
  tr.filterMap fun c =>
    match c with
    | .draw (.running d) => some d.perc
    | _ => none

/-- Model of `Timer::new` (timer.rs:78-86). -/
def Timer.new (hours minutes seconds : Nat) : Timer :=
  ⟨seconds + (minutes + hours * 60) * 60, seconds + (minutes + hours * 60) * 60⟩

/-- Environment for one `Timer::start` call made by the session loop. -/
structure IntervalEnv where
  notifyRes : Option NotifyErr
  ticks : List TickInput
  window : List WindowInput
deriving DecidableEq

/-- Solanum session (`src/session.rs`, `struct Session`); `pomodoro_count`
and `pomodoros` are `u8` in the source. -/
structure Session where
  pomodoroCount : Nat
  pomodoro : Timer
  shortBreak : Timer
  longBreak : Timer
  pomodoros : Nat
deriving DecidableEq

/-- The `Default` instance of `Session` (session.rs:46-76). -/
def defaultSession : Session :=
  ⟨0, Timer.new 0 25 0, Timer.new 0 5 0, Timer.new 0 15 0, 4⟩

/-- Position in the control flow of the nested loops of `Session::start`. -/
inductive Phase
  | pomodoro
  | shortBreak
  | longBreak
deriving DecidableEq

/-- Result of a `Session::start` run. -/
inductive SessRes
  /-- Rust `Err(..)` was returned (a `?` propagated a timer-run error). -/
  | err (e : Err)
  /-- Rust `Ok(())` was returned (a timer run reported `terminate = true`). -/
  | ok
  /-- The environment script was exhausted; the loop never ends on its own. -/
  | stuck
deriving DecidableEq

/-- The nested loops of `Session::start` (session.rs:80-114): increment
`pomodoro_count` (a `u8`: increments wrap modulo 256 in release builds; a
debug build would abort at 255 + 1) and run the pomodoro timer; on normal
completion jump to the long break when `pomodoro_count % pomodoros == 0`
(`%` is `Nat.mod` here where the source would abort for `pomodoros = 0`),
otherwise run the short break and repeat; after a long break restart the
inner loop.  Each timer run consumes one `IntervalEnv`; the run's final
timer state is written back to the corresponding field.  Returns the list
of started activities, the final session state, and the overall result. -/
def sessionGo : Phase → Session → List IntervalEnv → List Activity × Session × SessRes
  | _, s, [] => ([], s, .stuck)
  | .pomodoro, s, env :: rest =>
    let c := (s.pomodoroCount + 1) % 256
    let s1 : Session := { s with pomodoroCount := c }
    let out := s1.pomodoro.start (.pomodoro c) env.notifyRes env.ticks env.window
    let s2 : Session := { s1 with pomodoro := out.timer }
    match out.result with
    | .err e => ([.pomodoro c], s2, .err e)
    | .stuck => ([.pomodoro c], s2, .stuck)
    | .ok true => ([.pomodoro c], s2, .ok)
    | .ok false =>
      let next := if c % s2.pomodoros = 0 then Phase.longBreak else Phase.shortBreak
      let r := sessionGo next s2 rest
      (.pomodoro c :: r.1, r.2)
  | .shortBreak, s, env :: rest =>
    let out := s.shortBreak.start .shortBreak env.notifyRes env.ticks env.window
    let s2 : Session := { s with shortBreak := out.timer }
    match out.result with
    | .err e => ([.shortBreak], s2, .err e)
    | .stuck => ([.shortBreak], s2, .stuck)
    | .ok true => ([.shortBreak], s2, .ok)
    | .ok false =>
      let r := sessionGo .pomodoro s2 rest
      (.shortBreak :: r.1, r.2)
  | .longBreak, s, env :: rest =>
    let out := s.longBreak.start .longBreak env.notifyRes env.ticks env.window
    let s2 : Session := { s with longBreak := out.timer }
    match out.result with
    | .err e => ([.longBreak], s2, .err e)
    | .stuck => ([.longBreak], s2, .stuck)
    | .ok true => ([.longBreak], s2, .ok)
    | .ok false =>
      let r := sessionGo .pomodoro s2 rest
      (.longBreak :: r.1, r.2)

/-- Model of `Session::start` (session.rs:80): the control flow begins at the top of
the inner loop, about to start a pomodoro. -/
def Session.start (s : Session) (envs : List IntervalEnv) :
    List Activity × Session × SessRes :=
  sessionGo .pomodoro s envs

/-- An interval environment in which the user immediately skips the interval
and the expired window closes on its timeout. -/
def skipEnv : IntervalEnv := ⟨none, [⟨0, .ev .skip, .ev .skip⟩], quietWindow⟩

/-- The value `usize::MAX + 1`. -/
def usizeSize : Nat := 2 ^ 64

/-- Errors produced by `Timer::from_str` (`Error::ParseTimer` and
`Error::TimerOverflow` of `src/error.rs`). -/
inductive ParseErr
  | parseTimer (msg : String)
  | timerOverflow
deriving DecidableEq

/-- Result of `Timer::from_str`, with a distinguished value for a Rust panic
(an `unwrap` of a failed `str::parse::<usize>`). -/
inductive FromStrRes
  | panicked
  | error (e : ParseErr)
  | ok (t : Timer)
deriving DecidableEq

/-- Numeric value of a digit run: what `str::parse::<usize>` computes, before
its range check rejects values above `usize::MAX`. -/
def digitsVal (cs : List Char) : Nat :=
  cs.foldl (fun acc c => acc * 10 + (c.toNat - 48)) 0

/-- Is `c` one of the unit characters of `[[<H>h]<M>m]<S>s`? -/
def isUnitChar (c : Char) : Bool :=
  c == 'h' || c == 'H' || c == 'm' || c == 'M' || c == 's' || c == 'S'

/-- The character loop of `Timer::from_str` (timer.rs:211-241).  `chars` is
the pending digit run and `duration` the accumulated seconds.  On a unit
character: an empty digit run is a parse error; `v.parse::<usize>().unwrap()`
panics when the run's value exceeds `usize::MAX` (the source comment claims
the unwrap is safe, but digit filtering does not bound the value); the unit
multiplication wraps modulo 2^64 (release semantics); `checked_add` turns an
overflowing sum into `TimerOverflow`.  Any other non-digit is a parse
error. -/
def fromStrLoop : List Char → List Char → Nat → FromStrRes
  | [], _, duration => .ok ⟨duration, duration⟩
  | c :: cs, chars, duration =>
    if isUnitChar c then
      if chars.isEmpty then .error (.parseTimer ("null " ++ c.toString ++ " value"))
      else if usizeSize ≤ digitsVal chars then .panicked
      else
        let value :=
          if c == 'h' || c == 'H' then digitsVal chars * 3600 % usizeSize
          else if c == 'm' || c == 'M' then digitsVal chars * 60 % usizeSize
          else digitsVal chars
        if usizeSize ≤ duration + value then .error .timerOverflow
        else fromStrLoop cs [] (duration + value)
    else if c.isDigit then fromStrLoop cs (chars ++ [c]) duration
    else .error (.parseTimer ("`" ++ c.toString ++ "` is not a digit"))

/-- Model of `Timer::from_str` (timer.rs:200-247): reject strings not ending in a unit
character, then run the character loop. -/
def Timer.fromStr (s : String) : FromStrRes :=
  if (s.toList.getLast?.elim false isUnitChar) then fromStrLoop s.toList [] 0
  else .error (.parseTimer ("expected `[[<H>h]<M>m]<S>s` format (found `" ++ s ++ "`)"))

/-- The ordinals of the pomodoro activities of a trace, in order. -/
def pomOrds (tr : List Activity) : List Nat :=
  tr.filterMap fun a =>
    match a with
    | .pomodoro k => some k
    | _ => none

/-- The activity that `sessionGo` starts first from a given phase and
pomodoro count. -/
def phaseActivity : Phase → Nat → Activity
  | .pomodoro, c => .pomodoro ((c + 1) % 256)
  | .shortBreak, _ => .shortBreak
  | .longBreak, _ => .longBreak

example : Timer.fromStr "2h10m4s" = .ok (Timer.new 2 10 4) := by decide

example : Timer.fromStr "4m2s" = .ok ⟨242, 242⟩ := by decide

example : Timer.fromStr "5m" = .ok ⟨300, 300⟩ := by decide

example : Timer.fromStr "" = .error (.parseTimer "expected `[[<H>h]<M>m]<S>s` format (found ``)") := by decide

example :
    (Session.start { defaultSession with pomodoros := 2 } (List.replicate 8 skipEnv)).1 =
      [.pomodoro 1, .shortBreak, .pomodoro 2, .longBreak,
       .pomodoro 3, .shortBreak, .pomodoro 4, .longBreak] := by decide

example : noEventRun 2 (.pomodoro 1) =
    ⟨[.draw (.running (TimerData.new (.pomodoro 1) 2 (Timer.remainingPercentage ⟨2, 2⟩))),
      .draw (.running (TimerData.new (.pomodoro 1) 1 (Timer.remainingPercentage ⟨2, 1⟩))),
      .draw .expired], ⟨2, 2⟩, true, .ok false⟩ := rfl

example : runningResidues (noEventRun 3 (.pomodoro 1)).trace = [3, 2, 1] := by decide

lemma countdownLoop_no_overrun (act : Activity) :
    ∀ (l : List TickInput) (t : Timer), (∀ j ∈ l, j.elapsedNs ≤ 999000000) →
      (countdownLoop act t l).2.2 ≠ LoopExit.renderOverrun := by
  intro l
  induction l with
  | nil =>
    intro t _
    simp only [countdownLoop]
    split <;> simp
  | cons i rest ih =>
    intro t h
    have hi : delay i.elapsedNs = some (999000000 - i.elapsedNs) := by
      simp [delay, h i (List.mem_cons_self i rest)]
    have hrest : ∀ j ∈ rest, j.elapsedNs ≤ 999000000 := fun j hj =>
      h j (List.mem_cons_of_mem i hj)
    simp only [countdownLoop, hi]
    split
    · simp
    · rcases hr : i.recv with _ | e | _
      · simpa using ih _ hrest
      · cases e
        · rcases hp : i.pauseRecv with e' | _
          · cases e'
            · simpa using ih _ hrest
            · simp
          · simp
        · simp
      · simp

lemma filterMap_some_fn {α β : Type} (f : α → β) (l : List α) :
    l.filterMap (fun a => some (f a)) = l.map f := by
  induction l with
  | nil => rfl
  | cons a l ih => simp [List.filterMap_cons, ih]

lemma countdownLoop_quiet (act : Activity) (total : Nat) :
    ∀ r : Nat, countdownLoop act ⟨total, r⟩ (List.replicate r quietTick) =
      ((List.range r).map fun i =>
          UiCommand.draw (.running (TimerData.new act (r - i)
            (Timer.remainingPercentage ⟨total, r - i⟩))),
        ⟨total, 0⟩, .expired)
  | 0 => by simp [countdownLoop]
  | r + 1 => by
    have ih := countdownLoop_quiet act total r
    simp only [quietTick] at ih
    have hmap : (List.range (r + 1)).map (fun i =>
        UiCommand.draw (.running (TimerData.new act (r + 1 - i)
          (Timer.remainingPercentage ⟨total, r + 1 - i⟩)))) =
      UiCommand.draw (.running (TimerData.new act (r + 1)
          (Timer.remainingPercentage ⟨total, r + 1⟩))) ::
        (List.range r).map (fun i =>
          UiCommand.draw (.running (TimerData.new act (r - i)
            (Timer.remainingPercentage ⟨total, r - i⟩)))) := by
      rw [List.range_succ_eq_map]
      simp [List.map_map, Function.comp_def, Nat.succ_sub_succ]
    rw [hmap, List.replicate_succ]
    simp [countdownLoop, delay, quietTick, ih]

/-- Claim C1, corrected: an undisturbed run of a fresh timer of total
duration `d ≥ 1` emits exactly `d` `Running` snapshots whose displayed
residuals are strictly decreasing `d, d-1, …, 1` — not `d-1, …, 0` — and
only afterwards the `Expired` draw command; the run returns `Ok(false)` and
the residual is reset to the total. -/
theorem quiet_run_emits_d_snapshots (d : Nat) (hd : 1 ≤ d) (act : Activity) :
    (noEventRun d act).trace =
      ((List.range d).map fun i =>
        UiCommand.draw (.running (TimerData.new act (d - i)
          (Timer.remainingPercentage ⟨d, d - i⟩)))) ++ [UiCommand.draw .expired]
    ∧ runningResidues (noEventRun d act).trace = (List.range d).map (fun i => d - i)
    ∧ (runningResidues (noEventRun d act).trace).length = d
    ∧ List.Chain' (fun a b => b < a) (runningResidues (noEventRun d act).trace)
    ∧ (noEventRun d act).result = .ok false
    ∧ (noEventRun d act).timer = ⟨d, d⟩ := by
  have hloop := countdownLoop_quiet act d d
  have hstart : noEventRun d act =
      ⟨((List.range d).map fun i =>
          UiCommand.draw (.running (TimerData.new act (d - i)
            (Timer.remainingPercentage ⟨d, d - i⟩)))) ++ [UiCommand.draw .expired],
        ⟨d, d⟩, true, .ok false⟩ := by
    simp [noEventRun, Timer.start, hloop, quietWindow, windowLoop, expiredDuration]
  have hres : runningResidues (noEventRun d act).trace =
      (List.range d).map (fun i => d - i) := by
    rw [hstart]
    simp [runningResidues, List.filterMap_map, Function.comp_def, TimerData.new,
      filterMap_some_fn]
  have hchain : List.Chain' (fun a b => b < a) ((List.range d).map (fun i => d - i)) := by
    rw [List.chain'_map]
    obtain ⟨d', rfl⟩ : ∃ d', d = d' + 1 := ⟨d - 1, by omega⟩
    rw [show d' + 1 = Nat.succ d' from rfl, List.chain'_range_succ]
    intro m _
    omega
  refine ⟨by rw [hstart], hres, by rw [hres]; simp, by rw [hres]; exact hchain,
    by rw [hstart], by rw [hstart]⟩

/-- Claim C1, counterexample to the claim as stated: for `d = 1` the claim
demands a single `Running` snapshot with residual `0`, but the run's single
snapshot displays residual `1`. -/
theorem quiet_run_counterexample :
    runningResidues (noEventRun 1 (.pomodoro 1)).trace = [1]
    ∧ ([1] : List Nat) ≠ [0] := by decide

/-- Claim C1, witness for `quiet_run_emits_d_snapshots` at `d = 3`. -/
theorem quiet_run_emits_d_snapshots_witness :
    1 ≤ 3
    ∧ ((noEventRun 3 .shortBreak).trace =
      ((List.range 3).map fun i =>
        UiCommand.draw (.running (TimerData.new .shortBreak (3 - i)
          (Timer.remainingPercentage ⟨3, 3 - i⟩)))) ++ [UiCommand.draw .expired]
    ∧ runningResidues (noEventRun 3 .shortBreak).trace = (List.range 3).map (fun i => 3 - i)
    ∧ (runningResidues (noEventRun 3 .shortBreak).trace).length = 3
    ∧ List.Chain' (fun a b => b < a) (runningResidues (noEventRun 3 .shortBreak).trace)
    ∧ (noEventRun 3 .shortBreak).result = .ok false
    ∧ (noEventRun 3 .shortBreak).timer = ⟨3, 3⟩) :=
  ⟨by decide, quiet_run_emits_d_snapshots 3 (by decide) .shortBreak⟩

lemma countdownLoop_no_expired_draw (act : Activity) :
    ∀ (l : List TickInput) (t : Timer), UiCommand.draw .expired ∉ (countdownLoop act t l).1 := by
  intro l
  induction l with
  | nil =>
    intro t
    simp only [countdownLoop]
    split <;> simp
  | cons i rest ih =>
    intro t
    simp only [countdownLoop]
    split
    · simp
    · cases hd : delay i.elapsedNs
      · simp
      · rcases hr : i.recv with _ | e | _
        · simpa using ih _
        · cases e
          · rcases hp : i.pauseRecv with e' | _
            · cases e'
              · simpa using ih _
              · simp
            · simp
          · simp
        · simp

/-- Claim C3, corrected: a failure of the notification capability at expiry
is fatal, not ignored: `Timer::start` propagates the error to its caller
(the Scheduler) through `?`, the `Expired` draw command is never emitted,
the confirmation window is skipped, and the residual keeps the value it had
when the countdown loop ended (it is not reset). -/
theorem notify_failure_propagates (t : Timer) (act : Activity) (e : NotifyErr)
    (ticks : List TickInput) (w : List WindowInput)
    (h : (countdownLoop act t ticks).2.2 = .expired) :
    Timer.start t act (some e) ticks w =
      ⟨(countdownLoop act t ticks).1, (countdownLoop act t ticks).2.1, true,
        .err (.notification e)⟩
    ∧ UiCommand.draw .expired ∉ (Timer.start t act (some e) ticks w).trace := by
  have h1 : Timer.start t act (some e) ticks w =
      ⟨(countdownLoop act t ticks).1, (countdownLoop act t ticks).2.1, true,
        .err (.notification e)⟩ := by
    simp [Timer.start, h]
  refine ⟨h1, ?_⟩
  rw [h1]
  simpa using countdownLoop_no_expired_draw act ticks t

/-- Claim C3, counterexample to the claim as stated: on a 1-second run whose
notification fails, the run returns the notification error instead of
`Ok(false)`, never emits `Expired`, and leaves the residual at 0 instead of
resetting it to the total. -/
theorem notify_failure_counterexample :
    (Timer.start ⟨1, 1⟩ (.pomodoro 1) (some .deliveryFailed) [quietTick] quietWindow).result
        = .err (.notification .deliveryFailed)
    ∧ UiCommand.draw .expired ∉
        (Timer.start ⟨1, 1⟩ (.pomodoro 1) (some .deliveryFailed) [quietTick] quietWindow).trace
    ∧ (Timer.start ⟨1, 1⟩ (.pomodoro 1) (some .deliveryFailed) [quietTick] quietWindow).timer
        = ⟨1, 0⟩ := by decide

/-- Claim C3, witness for `notify_failure_propagates` at concrete inputs. -/
theorem notify_failure_propagates_witness :
    (countdownLoop (.pomodoro 2) ⟨1, 1⟩ [quietTick]).2.2 = .expired
    ∧ (Timer.start ⟨1, 1⟩ (.pomodoro 2) (some .deliveryFailed) [quietTick] quietWindow =
      ⟨(countdownLoop (.pomodoro 2) ⟨1, 1⟩ [quietTick]).1,
        (countdownLoop (.pomodoro 2) ⟨1, 1⟩ [quietTick]).2.1, true,
        .err (.notification .deliveryFailed)⟩
    ∧ UiCommand.draw .expired ∉
        (Timer.start ⟨1, 1⟩ (.pomodoro 2) (some .deliveryFailed) [quietTick] quietWindow).trace) :=
  ⟨by decide, notify_failure_propagates ⟨1, 1⟩ (.pomodoro 2) .deliveryFailed [quietTick]
    quietWindow (by decide)⟩

/-- Claim C2, corrected: the wait budget of a tick is `999 ms − elapsed`
(999 milliseconds, not one second), and the run fails with `RenderTime`
exactly when the elapsed time since the tick start exceeds 999 ms — not
when the claimed budget `1 s − elapsed` is `≤ 0`.  A run all of whose
scripted ticks stay within 999 ms never fails with `RenderTime`. -/
theorem tick_budget_999ms (act : Activity) (t : Timer) (ht : 0 < t.residue)
    (i : TickInput) (rest ticks : List TickInput) (nr : Option NotifyErr)
    (w : List WindowInput) :
    (delay i.elapsedNs = none ↔ 999000000 < i.elapsedNs)
    ∧ (i.elapsedNs ≤ 999000000 → delay i.elapsedNs = some (999000000 - i.elapsedNs))
    ∧ (999000000 < i.elapsedNs →
        Timer.start t act nr (i :: rest) w =
          ⟨[UiCommand.draw (.running (TimerData.new act t.residue t.remainingPercentage))],
            t, false, .err .renderTime⟩)
    ∧ ((∀ j ∈ ticks, j.elapsedNs ≤ 999000000) →
        (Timer.start t act nr ticks w).result ≠ .err .renderTime) := by
  have h0 : ¬ t.residue = 0 := by omega
  refine ⟨?_, ?_, ?_, ?_⟩
  · simp only [delay]
    split <;> simp <;> omega
  · intro h
    simp [delay, h]
  · intro h
    have hd : delay i.elapsedNs = none := by simp [delay]; omega
    simp [Timer.start, countdownLoop, hd, h0]
  · intro hall
    have hno := countdownLoop_no_overrun act ticks t hall
    cases htag : (countdownLoop act t ticks).2.2 with
    | renderOverrun => exact absurd htag hno
    | terminate => simp [Timer.start, htag]
    | stuck => simp [Timer.start, htag]
    | expired =>
      cases nr with
      | some e => simp [Timer.start, htag]
      | none => cases hw : (windowLoop w).2 <;> simp [Timer.start, htag, hw]

/-- Claim C2, counterexample to the claim as stated: at an elapsed time of
999000001 ns the claimed budget `1 s − elapsed` is still positive, yet the
run fails with `RenderTime`. -/
theorem tick_budget_999ms_counterexample :
    (Timer.start ⟨2, 2⟩ (.pomodoro 1) none
        [⟨999000001, .timeout, .ev .togglePause⟩] quietWindow).result = .err .renderTime
    ∧ 999000001 < 1000000000 := by decide

/-- Claim C2, witness for `tick_budget_999ms` at concrete inputs. -/
theorem tick_budget_999ms_witness :
    0 < (Timer.mk 3 3).residue
    ∧ ((delay (TickInput.mk 999000001 .timeout (.ev .togglePause)).elapsedNs = none ↔
        999000000 < (TickInput.mk 999000001 .timeout (.ev .togglePause)).elapsedNs)
    ∧ ((TickInput.mk 999000001 .timeout (.ev .togglePause)).elapsedNs ≤ 999000000 →
        delay (TickInput.mk 999000001 .timeout (.ev .togglePause)).elapsedNs =
          some (999000000 - (TickInput.mk 999000001 .timeout (.ev .togglePause)).elapsedNs))
    ∧ (999000000 < (TickInput.mk 999000001 .timeout (.ev .togglePause)).elapsedNs →
        Timer.start (Timer.mk 3 3) (.pomodoro 1) none
            [TickInput.mk 999000001 .timeout (.ev .togglePause)] quietWindow =
          ⟨[UiCommand.draw (.running (TimerData.new (.pomodoro 1) (Timer.mk 3 3).residue
              (Timer.mk 3 3).remainingPercentage))],
            Timer.mk 3 3, false, .err .renderTime⟩)
    ∧ ((∀ j ∈ [quietTick], j.elapsedNs ≤ 999000000) →
        (Timer.start (Timer.mk 3 3) (.pomodoro 1) none [quietTick] quietWindow).result ≠
          .err .renderTime)) :=
  ⟨by decide, tick_budget_999ms (.pomodoro 1) (Timer.mk 3 3) (by decide)
    (TickInput.mk 999000001 .timeout (.ev .togglePause)) [] [quietTick] none quietWindow⟩

/-- Claim C4, corrected: the expired confirmation window uses the constant
5 seconds; an incoming intent does NOT end the window early — the event is
received, discarded, and the loop continues — while a channel disconnect
ends it with `terminate = true`, a `recv_timeout` timeout ends it normally,
and an elapsed time above 5 s at the loop condition ends it normally without
a further receive.  A window ending by disconnect makes `Timer::start`
return `Ok(true)`. -/
theorem expired_window_behaviour (e : Nat) (he : e ≤ 5000000000) (x : Event)
    (rest : List WindowInput) :
    expiredDuration = 5
    ∧ windowLoop (⟨e, .ev x⟩ :: rest) = ((windowLoop rest).1 + 1, (windowLoop rest).2)
    ∧ windowLoop (⟨e, .disconnected⟩ :: rest) = (1, .terminate)
    ∧ windowLoop (⟨e, .timeout⟩ :: rest) = (1, .normal)
    ∧ (∀ e', 5000000000 < e' → ∀ rc, windowLoop (⟨e', rc⟩ :: rest) = (0, .normal))
    ∧ (∀ (t : Timer) (act : Activity) (ticks : List TickInput) (w : List WindowInput),
        (countdownLoop act t ticks).2.2 = .expired → (windowLoop w).2 = .terminate →
        (Timer.start t act none ticks w).result = .ok true) := by
  refine ⟨rfl, ?_, ?_, ?_, ?_, ?_⟩
  · simp [windowLoop, expiredDuration, he]
  · simp [windowLoop, expiredDuration, he]
  · simp [windowLoop, expiredDuration, he]
  · intro e' he' rc
    have : ¬ e' ≤ 5000000000 := by omega
    simp [windowLoop, expiredDuration, this]
  · intro t act ticks w h1 h2
    simp [Timer.start, h1, h2]

/-- Claim C4, counterexample to the claim as stated: an intent received
during the expired window does not end it; after the first intent the loop
performs two further receive operations (three in total, where ending the
window at the intent would show one). -/
theorem expired_window_counterexample :
    windowLoop [⟨0, .ev .skip⟩, ⟨0, .ev .togglePause⟩, ⟨0, .timeout⟩] = (3, .normal)
    ∧ (3 : Nat) ≠ 1 := by decide

/-- Claim C4, witness for `expired_window_behaviour` at concrete inputs. -/
theorem expired_window_behaviour_witness :
    1000 ≤ 5000000000
    ∧ (expiredDuration = 5
    ∧ windowLoop (⟨1000, .ev .skip⟩ :: [⟨0, .timeout⟩]) =
        ((windowLoop [⟨0, .timeout⟩]).1 + 1, (windowLoop [⟨0, .timeout⟩]).2)
    ∧ windowLoop (⟨1000, .disconnected⟩ :: [⟨0, .timeout⟩]) = (1, .terminate)
    ∧ windowLoop (⟨1000, .timeout⟩ :: [⟨0, .timeout⟩]) = (1, .normal)
    ∧ (∀ e', 5000000000 < e' → ∀ rc, windowLoop (⟨e', rc⟩ :: [⟨0, .timeout⟩]) = (0, .normal))
    ∧ (∀ (t : Timer) (act : Activity) (ticks : List TickInput) (w : List WindowInput),
        (countdownLoop act t ticks).2.2 = .expired → (windowLoop w).2 = .terminate →
        (Timer.start t act none ticks w).result = .ok true)) :=
  ⟨by decide, expired_window_behaviour 1000 (by decide) .skip [⟨0, .timeout⟩]⟩

/-- Claim C8, confirmed: if the intent channel disconnects while the timer
is waiting for an intent — during the tick wait or while paused — the run
returns `terminate = true` immediately (nothing further is emitted or
consumed) and the notification capability is never invoked. -/
theorem disconnect_terminates_without_notify (t : Timer) (ht : 0 < t.residue)
    (act : Activity) (nr : Option NotifyErr) (e : Nat) (he : e ≤ 999000000)
    (pr : Recv) (rest : List TickInput) (w : List WindowInput) :
    Timer.start t act nr (⟨e, .disconnected, pr⟩ :: rest) w =
      ⟨[UiCommand.draw (.running (TimerData.new act t.residue t.remainingPercentage))],
        t, false, .ok true⟩
    ∧ Timer.start t act nr (⟨e, .ev .togglePause, .disconnected⟩ :: rest) w =
      ⟨[UiCommand.draw (.running (TimerData.new act t.residue t.remainingPercentage)),
        UiCommand.draw .paused], t, false, .ok true⟩ := by
  have hd : delay e = some (999000000 - e) := by simp [delay, he]
  have h0 : ¬ t.residue = 0 := by omega
  constructor <;> simp [Timer.start, countdownLoop, hd, h0]

/-- Claim C8, witness for `disconnect_terminates_without_notify` at concrete
inputs. -/
theorem disconnect_terminates_without_notify_witness :
    0 < (Timer.mk 5 4).residue ∧ 17 ≤ 999000000
    ∧ (Timer.start (Timer.mk 5 4) .shortBreak none [⟨17, .disconnected, .ev .skip⟩] quietWindow =
      ⟨[UiCommand.draw (.running (TimerData.new .shortBreak (Timer.mk 5 4).residue
          (Timer.mk 5 4).remainingPercentage))],
        Timer.mk 5 4, false, .ok true⟩
    ∧ Timer.start (Timer.mk 5 4) .shortBreak none
        [⟨17, .ev .togglePause, .disconnected⟩] quietWindow =
      ⟨[UiCommand.draw (.running (TimerData.new .shortBreak (Timer.mk 5 4).residue
          (Timer.mk 5 4).remainingPercentage)),
        UiCommand.draw .paused], Timer.mk 5 4, false, .ok true⟩) :=
  ⟨by decide, by decide,
    disconnect_terminates_without_notify (Timer.mk 5 4) (by decide) .shortBreak none 17
      (by decide) (.ev .skip) [] quietWindow⟩

/-- Claim C9, confirmed: a `TogglePause` intent during the tick wait draws
the `Paused` screen and blocks; a second `TogglePause` resumes the countdown
loop on the same timer state — the residual is unchanged and the decrement
of that iteration is skipped, so the pause consumes no tick. -/
theorem pause_resume_keeps_residual (t : Timer) (ht : 0 < t.residue)
    (act : Activity) (e : Nat) (he : e ≤ 999000000) (rest : List TickInput) :
    countdownLoop act t (⟨e, .ev .togglePause, .ev .togglePause⟩ :: rest) =
      (UiCommand.draw (.running (TimerData.new act t.residue t.remainingPercentage)) ::
        UiCommand.draw .paused :: (countdownLoop act t rest).1,
       (countdownLoop act t rest).2) := by
  have hd : delay e = some (999000000 - e) := by simp [delay, he]
  have h0 : ¬ t.residue = 0 := by omega
  simp [countdownLoop, hd, h0]

/-- Claim C9, witness for `pause_resume_keeps_residual` at concrete
inputs. -/
theorem pause_resume_keeps_residual_witness :
    0 < (Timer.mk 9 7).residue ∧ 250000000 ≤ 999000000
    ∧ countdownLoop .longBreak (Timer.mk 9 7)
        (⟨250000000, .ev .togglePause, .ev .togglePause⟩ :: [quietTick]) =
      (UiCommand.draw (.running (TimerData.new .longBreak (Timer.mk 9 7).residue
          (Timer.mk 9 7).remainingPercentage)) ::
        UiCommand.draw .paused :: (countdownLoop .longBreak (Timer.mk 9 7) [quietTick]).1,
       (countdownLoop .longBreak (Timer.mk 9 7) [quietTick]).2) :=
  ⟨by decide, by decide,
    pause_resume_keeps_residual (Timer.mk 9 7) (by decide) .longBreak 250000000
      (by decide) [quietTick]⟩

lemma sessionGo_head (p : Phase) (s : Session) (env : IntervalEnv)
    (rest : List IntervalEnv) :
    (sessionGo p s (env :: rest)).1.head? = some (phaseActivity p s.pomodoroCount) := by
  cases p <;> simp only [sessionGo, phaseActivity] <;> split <;> simp

lemma adj_pomodoro_next (N c m : Nat) (p : Phase)
    (hp : p = if c % N = 0 then Phase.longBreak else Phase.shortBreak) :
    (phaseActivity p m = Activity.longBreak ↔
      ∃ k, Activity.pomodoro c = Activity.pomodoro k ∧ k % N = 0) := by
  subst hp
  split
  case isTrue h =>
    exact iff_of_true rfl ⟨c, rfl, h⟩
  case isFalse h =>
    refine iff_of_false (by simp [phaseActivity]) ?_
    rintro ⟨k, hk, hk0⟩
    injection hk with hk'
    subst hk'
    exact h hk0

lemma sessionGo_longBreak_chain (N : Nat) :
    ∀ (envs : List IntervalEnv) (p : Phase) (s : Session), s.pomodoros = N →
      List.Chain' (fun a b => b = Activity.longBreak ↔
        ∃ k, a = Activity.pomodoro k ∧ k % N = 0) (sessionGo p s envs).1 := by
  intro envs
  induction envs with
  | nil => intro p s _; simp [sessionGo]
  | cons env rest ih =>
    intro p s hN
    cases p
    case pomodoro =>
      simp only [sessionGo]
      split
      · simp
      · simp
      · simp
      · rw [List.chain'_cons']
        refine ⟨?_, ih _ _ (by simpa using hN)⟩
        intro y hy
        cases rest with
        | nil => simp [sessionGo] at hy
        | cons env' rest' =>
          rw [sessionGo_head] at hy
          simp only [Option.mem_def, Option.some.injEq] at hy
          subst hy
          exact adj_pomodoro_next N _ _ _ (by rw [hN])
    case shortBreak =>
      simp only [sessionGo]
      split
      · simp
      · simp
      · simp
      · rw [List.chain'_cons']
        refine ⟨?_, ih _ _ (by simpa using hN)⟩
        intro y hy
        cases rest with
        | nil => simp [sessionGo] at hy
        | cons env' rest' =>
          rw [sessionGo_head] at hy
          simp only [Option.mem_def, Option.some.injEq] at hy
          subst hy
          simp [phaseActivity]
    case longBreak =>
      simp only [sessionGo]
      split
      · simp
      · simp
      · simp
      · rw [List.chain'_cons']
        refine ⟨?_, ih _ _ (by simpa using hN)⟩
        intro y hy
        cases rest with
        | nil => simp [sessionGo] at hy
        | cons env' rest' =>
          rw [sessionGo_head] at hy
          simp only [Option.mem_def, Option.some.injEq] at hy
          subst hy
          simp [phaseActivity]

/-- Claim C5, confirmed: in the session's activity sequence, an interval is
a `LongBreak` exactly when the interval immediately before it is a pomodoro
whose ordinal (the value of `pomodoro_count` right after that pomodoro
completed) is divisible by `pomodoros_before_long_break`; in particular a
`LongBreak` never immediately follows a `ShortBreak`. -/
theorem long_break_iff_count_multiple (s : Session) (hN : 0 < s.pomodoros)
    (envs : List IntervalEnv) :
    List.Chain' (fun a b => b = Activity.longBreak ↔
      ∃ k, a = Activity.pomodoro k ∧ k % s.pomodoros = 0) (Session.start s envs).1 :=
  sessionGo_longBreak_chain s.pomodoros envs .pomodoro s rfl

/-- Claim C5, witness for `long_break_iff_count_multiple` on a concrete
session (policy `pomodoros_before_long_break = 2`, five skipped
intervals). -/
theorem long_break_iff_count_multiple_witness :
    0 < ({ defaultSession with pomodoros := 2 } : Session).pomodoros
    ∧ List.Chain' (fun a b => b = Activity.longBreak ↔
        ∃ k, a = Activity.pomodoro k ∧
          k % ({ defaultSession with pomodoros := 2 } : Session).pomodoros = 0)
      (Session.start { defaultSession with pomodoros := 2 } (List.replicate 5 skipEnv)).1 :=
  ⟨by decide,
    long_break_iff_count_multiple { defaultSession with pomodoros := 2 } (by decide)
      (List.replicate 5 skipEnv)⟩

lemma sessionGo_pomOrds_chain :
    ∀ (envs : List IntervalEnv) (p : Phase) (s : Session),
      List.Chain' (fun a b => b = (a + 1) % 256)
        (s.pomodoroCount :: pomOrds (sessionGo p s envs).1) := by
  intro envs
  induction envs with
  | nil => intro p s; simp [sessionGo, pomOrds]
  | cons env rest ih =>
    intro p s
    cases p
    case pomodoro =>
      simp only [sessionGo]
      split
      · simp [pomOrds]
      · simp [pomOrds]
      · simp [pomOrds]
      · simp only [pomOrds, List.filterMap_cons]
        rw [List.chain'_cons]
        refine ⟨rfl, ?_⟩
        have hstep := ih
          (if (s.pomodoroCount + 1) % 256 % s.pomodoros = 0 then Phase.longBreak
            else Phase.shortBreak)
          (Session.mk ((s.pomodoroCount + 1) % 256)
            (s.pomodoro.start (Activity.pomodoro ((s.pomodoroCount + 1) % 256))
              env.notifyRes env.ticks env.window).timer
            s.shortBreak s.longBreak s.pomodoros)
        exact hstep
    case shortBreak =>
      simp only [sessionGo]
      split
      · simp [pomOrds]
      · simp [pomOrds]
      · simp [pomOrds]
      · simp only [pomOrds, List.filterMap_cons]
        exact ih Phase.pomodoro
          (Session.mk s.pomodoroCount s.pomodoro
            (s.shortBreak.start Activity.shortBreak env.notifyRes env.ticks env.window).timer
            s.longBreak s.pomodoros)
    case longBreak =>
      simp only [sessionGo]
      split
      · simp [pomOrds]
      · simp [pomOrds]
      · simp [pomOrds]
      · simp only [pomOrds, List.filterMap_cons]
        exact ih Phase.pomodoro
          (Session.mk s.pomodoroCount s.pomodoro s.shortBreak
            (s.longBreak.start Activity.longBreak env.notifyRes env.ticks env.window).timer
            s.pomodoros)

/-- Claim C6, corrected: `pomodoro_count` is a `u8`: each started pomodoro's
ordinal is the previous counter value plus one modulo 256 (release-build
wrap-around semantics; a debug build would abort at `255 + 1`), so the
ordinals shown to the user do NOT keep increasing across unboundedly many
cycles — after ordinal 255 the next pomodoro is numbered 0.  Below 255 the
counter does increase by exactly one per started pomodoro and is never
otherwise reset. -/
theorem pomodoro_ordinals_increment_mod_256 (s : Session) (envs : List IntervalEnv) :
    List.Chain' (fun a b => b = (a + 1) % 256)
      (s.pomodoroCount :: pomOrds (Session.start s envs).1) :=
  sessionGo_pomOrds_chain envs .pomodoro s

/-- Claim C6, counterexample to the claim as stated: starting from a session
whose counter has reached 255 (the state after 255 pomodoros), the next
started pomodoro carries ordinal 0 — the counter wrapped instead of
increasing. -/
theorem pomodoro_count_wrap_counterexample :
    (Session.start { defaultSession with pomodoroCount := 255 } [skipEnv]).1 =
      [Activity.pomodoro 0]
    ∧ ¬ 255 < 0 := by decide

lemma truncSatU16_eq_floor (q : ℚ) (hq : 0 ≤ q) : truncSatU16 q = min ⌊q⌋₊ 65535 := by
  have hnum : q.num.toNat / q.den = ⌊q⌋₊ := by
    rw [← Int.floor_toNat, Rat.floor_def]
    obtain ⟨m, hm⟩ : ∃ m : ℕ, q.num = (m : ℤ) :=
      ⟨q.num.toNat, (Int.toNat_of_nonneg (Rat.num_nonneg.mpr hq)).symm⟩
    rw [hm, ← Int.natCast_div, Int.toNat_natCast, Int.toNat_natCast]
  rw [truncSatU16, hnum, min_def]

lemma perc_formula (act : Activity) (a t r : Nat) :
    (TimerData.new act a (Timer.remainingPercentage ⟨t, r⟩)).perc =
      min (100 * r / t) 65535 := by
  have h1 : Timer.remainingPercentage ⟨t, r⟩ = ((100 * r : Nat) : ℚ) / (t : ℚ) := by
    rw [Timer.remainingPercentage]
    push_cast
    ring
  simp only [TimerData.new]
  rw [h1, truncSatU16_eq_floor _ (by positivity), Nat.floor_div_eq_div]

/-- Claim C7, corrected: the transmitted percent is the TRUNCATION (floor)
of `residual/total*100`, not its rounding; it always lies in `[0, 100]` for
`0 ≤ residual ≤ total`, `total > 0`, and it is monotonically non-increasing
as the residual decreases within one interval (fixed total). -/
theorem percent_truncated_bounded_monotone (t r r' : Nat) (h1 : 0 < t) (h2 : r ≤ t)
    (h3 : r' ≤ r) (act act' : Activity) (a a' : Nat) :
    (TimerData.new act a (Timer.remainingPercentage ⟨t, r⟩)).perc = 100 * r / t
    ∧ (TimerData.new act a (Timer.remainingPercentage ⟨t, r⟩)).perc ≤ 100
    ∧ (TimerData.new act' a' (Timer.remainingPercentage ⟨t, r'⟩)).perc ≤
        (TimerData.new act a (Timer.remainingPercentage ⟨t, r⟩)).perc := by
  have hb : ∀ x, x ≤ t → 100 * x / t ≤ 100 := by
    intro x hx
    calc 100 * x / t ≤ 100 * t / t := Nat.div_le_div_right (Nat.mul_le_mul_left _ hx)
    _ = 100 := Nat.mul_div_cancel 100 h1
  have he : (TimerData.new act a (Timer.remainingPercentage ⟨t, r⟩)).perc = 100 * r / t := by
    rw [perc_formula, min_eq_left (le_trans (hb r h2) (by norm_num))]
  have he' : (TimerData.new act' a' (Timer.remainingPercentage ⟨t, r'⟩)).perc =
      100 * r' / t := by
    rw [perc_formula, min_eq_left (le_trans (hb r' (le_trans h3 h2)) (by norm_num))]
  refine ⟨he, by rw [he]; exact hb r h2, ?_⟩
  rw [he, he']
  exact Nat.div_le_div_right (Nat.mul_le_mul_left _ h3)

/-- Claim C7, counterexample to the claim as stated: at `residual = 2`,
`total = 3` the code transmits `⌊200/3⌋ = 66` while rounding would give
`round(200/3) = 67`. -/
theorem percent_truncation_counterexample :
    ((TimerData.new (.pomodoro 1) 2 (Timer.remainingPercentage ⟨3, 2⟩)).perc : ℤ) = 66
    ∧ round (Timer.remainingPercentage ⟨3, 2⟩) = 67
    ∧ (66 : ℤ) ≠ 67 := by
  refine ⟨?_, ?_, by decide⟩
  · rw [perc_formula]
    norm_num
  · have h2 : Timer.remainingPercentage ⟨3, 2⟩ = 200 / 3 := by
      rw [Timer.remainingPercentage]
      norm_num
    rw [h2, round_eq]
    rw [show ((200 : ℚ) / 3 + 1 / 2) = 403 / 6 by ring]
    rw [Int.floor_eq_iff] <;> norm_num

/-- Claim C7, witness for `percent_truncated_bounded_monotone` at concrete
inputs (`total = 10`, residuals 7 then 5). -/
theorem percent_truncated_bounded_monotone_witness :
    0 < 10 ∧ 7 ≤ 10 ∧ 5 ≤ 7
    ∧ ((TimerData.new .shortBreak 7 (Timer.remainingPercentage ⟨10, 7⟩)).perc = 100 * 7 / 10
    ∧ (TimerData.new .shortBreak 7 (Timer.remainingPercentage ⟨10, 7⟩)).perc ≤ 100
    ∧ (TimerData.new .longBreak 5 (Timer.remainingPercentage ⟨10, 5⟩)).perc ≤
        (TimerData.new .shortBreak 7 (Timer.remainingPercentage ⟨10, 7⟩)).perc) :=
  ⟨by decide, by decide, by decide,
    percent_truncated_bounded_monotone 10 7 5 (by decide) (by decide) (by decide)
      .shortBreak .longBreak 7 5⟩

/-- Claim C10, code bug: `Timer::from_str` panics on `"18446744073709551616s"`
(the digit run has value `usize::MAX + 1`): the run passes the digit filter,
but `v.parse::<usize>()` overflows and the `unwrap` panics — contrary to the
source's own comment ("Safe to unwrap since chars are filtered for digits")
and to the documented purpose of `Error::TimerOverflow` ("a number of seconds
greater than usize::MAX").  At `usize::MAX` itself the parse still
succeeds. -/
theorem from_str_panics_on_huge_component :
    Timer.fromStr "18446744073709551616s" = .panicked
    ∧ Timer.fromStr "18446744073709551615s" =
        .ok ⟨18446744073709551615, 18446744073709551615⟩ := by decide

end Solanum
